import Mathlib

/-
Shallow embedding of the Frontier Online Training Academy backend
(src/main.py, src/schemas.py), for verifying the repository's
natural-language specification.

Embedding conventions:
- Python floats are idealized as rationals (`ℚ`); all numeric values the
  handlers compute are exact at this precision.
- MongoDB collections are lists of typed documents kept in natural
  (insertion) order; `find_one` is `List.find?`, `update_one` updates the
  first matching document, inserts append at the end.
- Database-generated identifiers are modelled by a counter `nextId` in the
  database state; `random.randint` draws are passed as explicit arguments.
- Wall-clock timestamps (`issued_at`, `updated_at`) are not modelled; no
  verified property mentions them.
- The repository's `database` module is imported by `src/main.py` but is not
  part of the sources; its operations (`create_document`, `get_documents`)
  are modelled from the spec where marked.
-/

namespace Academy

/-- Round-half-even (banker's rounding) of the fraction `n / d`, for
naturals with `d > 0`: this is the integer rounding Python's `round`
performs. -/
def rheNat (n d : ℕ) : ℕ :=
  let q := n / d
  let r := n % d
  if 2 * r < d then q
  else if d < 2 * r then q + 1
  else if q % 2 = 0 then q else q + 1

/-- Python's `round(a / b, 2)` for naturals `a b` with `b > 0`: the float
value `a / b` is idealized as the exact rational, scaled by 100, rounded
half-even to an integer, and scaled back. -/
def pyRound2 (a b : ℕ) : ℚ := ((rheNat (100 * a) b : ℕ) : ℚ) / 100

/-- A MongoDB document identifier: either an ObjectId (the database-generated
kind, written `\x7b"$oid": s\x7d` in queries) or a plain string. -/
inductive MongoId where
  | oid (s : String)
  | str (s : String)
deriving DecidableEq

/-- Modelled from the spec: documents are "stored as independent documents
with database-generated identifiers"; we generate the identifier for the
n-th created document from a counter. -/
def genId (n : ℕ) : MongoId := .oid (Nat.repr n)

/-- A document of the `course` collection (fields from `schemas.Course` and
the seed data in `src/main.py`). -/
structure CourseDoc where
  _id : MongoId
  title : String
  category : String
  description : String
  instructor : String
  level : String
  tags : List String
  price : ℚ
  thumbnail_url : Option String
  promo_video_url : Option String
deriving DecidableEq

/-- A document of the `lesson` collection (only the fields the verified
handlers consult). -/
structure LessonDoc where
  _id : MongoId
  course_id : String
deriving DecidableEq

/-- A quiz question: `\x7bquestion, options, answer\x7d`; `answer` is
`Option` because quiz questions are arbitrary dictionaries and the handler
reads it with `.get("answer")`. -/
structure Question where
  question : String
  options : List String
  answer : Option Int
deriving DecidableEq

/-- A document of the `quiz` collection. -/
structure QuizDoc where
  _id : MongoId
  course_id : String
  title : String
  questions : List Question
deriving DecidableEq

/-- A document of the `enrollment` collection. `status` is `Option` because
the progress handler's upsert can create an enrollment document that has no
`status` field. -/
structure EnrollmentDoc where
  _id : MongoId
  user_id : String
  course_id : String
  status : Option String
  progress : ℚ
deriving DecidableEq

/-- A document of the `progress` collection. -/
structure ProgressDoc where
  _id : MongoId
  user_id : String
  course_id : String
  completed_lessons : List String
  last_lesson_id : Option String
deriving DecidableEq

/-- A document of the `certificate` collection. -/
structure CertificateDoc where
  _id : MongoId
  user_id : String
  course_id : String
  certificate_code : String
  url : String
deriving DecidableEq

/-- A document of the `payment` collection. -/
structure PaymentDoc where
  _id : MongoId
  user_id : String
  course_id : String
  amount : ℚ
  currency : String
  gateway : String
  status : String
  session_id : String
deriving DecidableEq

/-- The state of the document database: one list per collection used by the
handlers, plus the generated-identifier counter. -/
structure DB where
  course : List CourseDoc
  lesson : List LessonDoc
  quiz : List QuizDoc
  enrollment : List EnrollmentDoc
  progress : List ProgressDoc
  certificate : List CertificateDoc
  payment : List PaymentDoc
  nextId : ℕ
deriving DecidableEq

/-- An HTTP error raised by a handler (`HTTPException(status, detail)`). -/
structure HTTPError where
  status : ℕ
  detail : String
deriving DecidableEq

/-- `update_one`: update the first document matching the predicate, leaving
the rest unchanged. -/
def updateFirst (p : α → Bool) (f : α → α) : List α → List α
  | [] => []
  | x :: xs => if p x then f x :: xs else x :: updateFirst p f xs

/-- Modelled from the spec: `get_documents` from the repository's `database`
module (not under `src/`), "a thin pass-through to a document database,
providing ... `find-many` ... against named collections": return the
documents matching the filter, up to `limit`, in database-return order. -/
def get_documents (docs : List α) (filt : α → Bool) (limit : ℕ) : List α :=
  (docs.filter filt).take limit

/- ### Regular-expression matching for the `$regex` title filter.

`list_courses` filters titles with `\x7b"$regex": q, "$options": "i"\x7d`,
i.e. an unanchored, case-insensitive regular-expression search with the
user-supplied string as the pattern.  We model the fragment of regular
expressions in which `.` matches any character and every other character
matches itself (this is exact for patterns that contain no metacharacter
other than `.`). -/

/-- One pattern character against one subject character, case-insensitively:
`.` matches anything, other characters match up to case. -/
def dotMatch (pc c : Char) : Bool :=
  pc = '.' || pc.toLower = c.toLower

/-- Match the whole pattern against a prefix of the subject. -/
def matchHere : List Char → List Char → Bool
  | [], _ => true
  | _ :: _, [] => false
  | pc :: ps, c :: cs => dotMatch pc c && matchHere ps cs

/-- Unanchored search: the pattern matches at some position of the subject. -/
def regexSearch (p : List Char) : List Char → Bool
  | [] => matchHere p []
  | c :: cs => matchHere p (c :: cs) || regexSearch p cs

/-- The `$regex`/`$options: "i"` title filter: case-insensitive unanchored
regular-expression search of pattern `pat` in `s`. -/
def regexMatchI (pat s : String) : Bool := regexSearch pat.data s.data

/-- Case-insensitive substring containment, following the spec's words
("case-insensitive substring title search" / "its title contains q as a
substring ignoring case"); used to compare the specified behaviour against
the embedded code's regex behaviour. -/
def isPrefixChars : List Char → List Char → Bool
  | [], _ => true
  | _ :: _, [] => false
  | a :: as, b :: bs => a = b && isPrefixChars as bs

/-- Auxiliary for `containsInsensitive`: substring occurrence in char lists. -/
def isInfixChars (n : List Char) : List Char → Bool
  | [] => isPrefixChars n []
  | c :: cs => isPrefixChars n (c :: cs) || isInfixChars n cs

/-- Spec-side definition: `needle` occurs in `hay` ignoring case. -/
def containsInsensitive (needle hay : String) : Bool :=
  isInfixChars (needle.data.map Char.toLower) (hay.data.map Char.toLower)

/- ### Handlers -/

/-- The combined filter `GET /api/courses` builds: Python's `if category:`
and `if q:` are truthiness tests, so `None` and the empty string both mean
"no filter". -/
def courseFilter (category q : Option String) (c : CourseDoc) : Bool :=
  (match category with
   | none => true
   | some cat => if cat = "" then true else decide (c.category = cat))
  &&
  (match q with
   | none => true
   | some qs => if qs = "" then true else regexMatchI qs c.title)

/-- `GET /api/courses`: list courses with optional category filter and
`$regex` title filter, limit 100. -/
def list_courses (db : DB) (category q : Option String) : List CourseDoc :=
  get_documents db.course (courseFilter category q) 100

/-- First lookup strategy of `course_detail` and of `submit_quiz`:
`find_one(\x7b"_id": \x7b"$oid": s\x7d\x7d)`, matching documents whose
ObjectId is `s`. -/
def findCourseOid (db : DB) (s : String) : Option CourseDoc :=
  db.course.find? (fun c => decide (c._id = MongoId.oid s))

/-- Second lookup strategy: `find_one(\x7b"_id": s\x7d)`, matching documents
whose identifier is the plain string `s`. -/
def findCourseStr (db : DB) (s : String) : Option CourseDoc :=
  db.course.find? (fun c => decide (c._id = MongoId.str s))

/-- `GET /api/courses/\x7bcourse_id\x7d`: try the ObjectId lookup, then the
plain-string lookup; 404 if both fail. -/
def course_detail (db : DB) (course_id : String) : Except HTTPError CourseDoc :=
  match (findCourseOid db course_id).or (findCourseStr db course_id) with
  | none => .error ⟨404, "Course not found"⟩
  | some doc => .ok doc

/-- The `find_one` on the `enrollment` collection by (user_id, course_id). -/
def findEnrollment (db : DB) (u c : String) : Option EnrollmentDoc :=
  db.enrollment.find? (fun e => decide (e.user_id = u) && decide (e.course_id = c))

/-- The response of `POST /api/enroll`: either the fresh
`\x7b"_id", "status"\x7d` dictionary or the full existing document. -/
inductive EnrollResp where
  | created (_id : MongoId) (status : String)
  | existing (doc : EnrollmentDoc)
deriving DecidableEq

/-- `POST /api/enroll`: return the existing enrollment for the pair if any,
otherwise create one with status "enrolled" and progress 0.0. -/
def enroll (db : DB) (user_id course_id : String) : EnrollResp × DB :=
  match findEnrollment db user_id course_id with
  | some existing => (.existing existing, db)
  | none =>
      let _id := genId db.nextId
      let doc : EnrollmentDoc :=
        ⟨_id, user_id, course_id, some "enrolled", 0⟩
      (.created _id "enrolled",
       { db with enrollment := db.enrollment ++ [doc], nextId := db.nextId + 1 })

/-- The `find_one` on the `progress` collection by (user_id, course_id). -/
def findProgress (db : DB) (u c : String) : Option ProgressDoc :=
  db.progress.find? (fun r => decide (r.user_id = u) && decide (r.course_id = c))

/-- The stored completed-lessons list of the pair's progress record (empty
when no record exists). -/
def storedCompleted (db : DB) (u c : String) : List String :=
  ((findProgress db u c).map (fun r => r.completed_lessons)).getD []

/-- The completion set after the update: Python forms
`set(stored)` and adds the lesson id; we determinize the set as the
duplicate-free list with the new id inserted if absent. -/
def completedAfter (db : DB) (u c lesson_id : String) : List String :=
  (storedCompleted db u c).dedup.insert lesson_id

/-- `count_documents(\x7b"course_id": c\x7d)` on the `lesson` collection. -/
def lessonCount (db : DB) (c : String) : ℕ :=
  (db.lesson.filter (fun l => decide (l.course_id = c))).length

/-- `total_lessons = count or 1`: Python's `or` replaces a zero count
(falsy) by 1. -/
def totalLessons (db : DB) (c : String) : ℕ :=
  if lessonCount db c = 0 then 1 else lessonCount db c

/-- The enrollment `update_one(..., \x7b"$set": \x7b"progress": percent\x7d\x7d,
upsert=True)`: update the first matching document, or insert a new document
built from the query and the update (it has no `status` field). -/
def enrollUpsertProgress (db : DB) (u c : String) (percent : ℚ) : DB :=
  if (findEnrollment db u c).isSome then
    { db with enrollment :=
        (updateFirst (fun e => decide (e.user_id = u) && decide (e.course_id = c))
          (fun e => { e with progress := percent }) db.enrollment) }
  else
    { db with enrollment := db.enrollment ++ [⟨genId db.nextId, u, c, none, percent⟩],
              nextId := db.nextId + 1 }

/-- The progress-record write of `POST /api/progress`: update the existing
record of the pair (matched by its `_id`, as `update_one(\x7b"_id":
pr["_id"]\x7d, ...)` does) with the new completion set, or create a fresh
record when none exists. -/
def markDb1 (db : DB) (user_id course_id lesson_id : String) : DB :=
  match findProgress db user_id course_id with
  | some r =>
      { db with progress :=
          (updateFirst (fun r0 => decide (r0._id = r._id))
            (fun r0 => { r0 with completed_lessons := completedAfter db user_id course_id lesson_id,
                                 last_lesson_id := some lesson_id }) db.progress) }
  | none =>
      { db with progress := db.progress ++
                  [⟨genId db.nextId, user_id, course_id,
                    completedAfter db user_id course_id lesson_id, some lesson_id⟩],
                nextId := db.nextId + 1 }

/-- `POST /api/progress`: load or create the pair's progress record, add the
lesson to the completion set, recompute the percent, upsert the enrollment's
progress, and return the percent. -/
def mark_progress (db : DB) (user_id course_id lesson_id : String) : ℚ × DB :=
  let db1 := markDb1 db user_id course_id lesson_id
  let percent :=
    pyRound2 (100 * (completedAfter db user_id course_id lesson_id).length)
      (totalLessons db course_id)
  (percent, enrollUpsertProgress db1 user_id course_id percent)

/-- The fixed two-question quiz `get_quiz` seeds when a course has no quiz
(src/main.py, the `questions` list of the seeded document). -/
def seed_quiz_questions : List Question :=
  [⟨"Effective communication is primarily about?",
    ["Speaking", "Listening", "Grammar", "Accent"], some 1⟩,
   ⟨"IELTS stands for?",
    ["International English Language Testing System",
     "Indian English Language Test Suite", "Integrated ELT System", "None"], some 0⟩]

/-- `GET /api/quizzes/\x7bcourse_id\x7d`: return the course's quiz, seeding
the fixed two-question quiz first when none exists. -/
def get_quiz (db : DB) (course_id : String) : QuizDoc × DB :=
  match db.quiz.find? (fun z => decide (z.course_id = course_id)) with
  | some qz => (qz, db)
  | none =>
      let qz : QuizDoc := ⟨genId db.nextId, course_id, "Quick Check", seed_quiz_questions⟩
      (qz, { db with quiz := db.quiz ++ [qz], nextId := db.nextId + 1 })

/-- The scoring loop of `submit_quiz`: for each question index, a point is
scored when an answer was submitted at that index and equals the stored
`answer` field (`int == None` is false in Python, so questions without an
`answer` field never score). -/
def correct_count (questions : List Question) (answers : List Int) : ℕ :=
  (questions.enum.filter (fun iq =>
    match answers[iq.1]?, iq.2.answer with
    | some a, some b => decide (a = b)
    | _, _ => false)).length

/-- The two lookup strategies of `submit_quiz` (plain string first, then
ObjectId). -/
def findQuiz (db : DB) (s : String) : Option QuizDoc :=
  (db.quiz.find? (fun z => decide (z._id = MongoId.str s))).or
    (db.quiz.find? (fun z => decide (z._id = MongoId.oid s)))

/-- The string Python's `str()` renders a stored `_id` to. -/
def mongoIdStr : MongoId → String
  | .oid s => s
  | .str s => s

/-- The response of `POST /api/quizzes/submit`. -/
structure QuizResult where
  quiz_id : String
  score : ℚ
deriving DecidableEq

/-- `POST /api/quizzes/submit`: look the quiz up (two strategies), 404 when
both fail, otherwise score the submission. -/
def submit_quiz (db : DB) (quiz_id : String) (answers : List Int) :
    Except HTTPError QuizResult :=
  match findQuiz db quiz_id with
  | none => .error ⟨404, "Quiz not found"⟩
  | some qz =>
      .ok ⟨mongoIdStr qz._id,
           pyRound2 (100 * correct_count qz.questions answers) (max 1 qz.questions.length)⟩

/-- The `find_one` on the `certificate` collection by (user_id, course_id). -/
def findCertificate (db : DB) (u c : String) : Option CertificateDoc :=
  db.certificate.find? (fun d => decide (d.user_id = u) && decide (d.course_id = c))

/-- The response of `POST /api/certificates/issue`: the fresh
`\x7b"_id", "certificate_code"\x7d` dictionary or the full existing document. -/
inductive CertResp where
  | created (_id : MongoId) (certificate_code : String)
  | existing (doc : CertificateDoc)
deriving DecidableEq

/-- The certificate code each response carries. -/
def certRespCode : CertResp → String
  | .created _ code => code
  | .existing d => d.certificate_code

/-- `POST /api/certificates/issue`: draw a fresh random code, but return the
existing certificate of the pair unchanged if one exists; otherwise record a
new certificate under the fresh code.  `rand` is the value drawn by
`random.randint(100000, 999999)`. -/
def issue_certificate (db : DB) (rand : ℕ) (user_id course_id : String) :
    CertResp × DB :=
  let code := "FO-" ++ Nat.repr rand
  match findCertificate db user_id course_id with
  | some existing => (.existing existing, db)
  | none =>
      let _id := genId db.nextId
      let doc : CertificateDoc :=
        ⟨_id, user_id, course_id, code, "https://certs.frontier.example/" ++ code⟩
      (.created _id code,
       { db with certificate := db.certificate ++ [doc], nextId := db.nextId + 1 })

/- ### Mock payment session -/

/-- A fragment of Python's runtime values, large enough to evaluate the
`amount` expression of `create_payment_session`:
`float(find_one(...) or \x7b\x7d).get("price", 0.0)`. -/
inductive PyVal where
  | pynone
  | num (q : ℚ)
  | dictCourse (c : CourseDoc)
  | dictEmpty
deriving DecidableEq

/-- Python errors the expression can raise. -/
inductive PyErr where
  | typeError
  | attributeError
deriving DecidableEq

/-- Python truthiness for the modelled values: `None` and the empty
dictionary are falsy; a course document is a non-empty dictionary and is
truthy; a number is truthy when non-zero. -/
def pyTruthy : PyVal → Bool
  | .pynone => false
  | .num q => decide (q ≠ 0)
  | .dictCourse _ => true
  | .dictEmpty => false

/-- Python's `or`: the left operand if truthy, the right one otherwise. -/
def pyOr (a b : PyVal) : PyVal := if pyTruthy a then a else b

/-- Python's `float(...)`: succeeds on numbers; applied to `None` or a
dictionary it raises `TypeError: float() argument must be a string or a real
number`. -/
def pyFloat : PyVal → Except PyErr ℚ
  | .num q => .ok q
  | _ => .error .typeError

/-- The attribute access `f.get("price", 0.0)` where `f` is a float value:
Python floats have no `get` method, so this raises `AttributeError`. -/
def pyFloatGet (_f : ℚ) (_key : String) (_default : ℚ) : Except PyErr ℚ :=
  .error .attributeError

/-- The value of the course lookup, as a Python value: a document when
found, `None` when not. -/
def courseLookupVal : Option CourseDoc → PyVal
  | some c => .dictCourse c
  | none => .pynone

/-- The response of `POST /api/payments/create-session`. -/
structure PaymentResp where
  session_id : String
  payment_id : MongoId
deriving DecidableEq

/-- `POST /api/payments/create-session`, with `rand` the value
`random.randint(100000, 999999)` draws: evaluates, in order, the fields of
the payment document.  The `amount` field's expression applies `float()` to
the course-lookup result coalesced with `\x7b\x7d` (a dictionary either
way) and only then calls `.get("price", 0.0)` on the float; the evaluation
is therefore fallible and the handler propagates its exceptions. -/
def create_payment_session (db : DB) (rand : ℕ) (user_id course_id gateway currency : String) :
    Except PyErr (PaymentResp × DB) := do
  let session_id := "sess_" ++ Nat.repr rand
  let lookup := findCourseOid db course_id
  let f ← pyFloat (pyOr (courseLookupVal lookup) .dictEmpty)
  let amount ← pyFloatGet f "price" 0
  let _id := genId db.nextId
  let doc : PaymentDoc :=
    ⟨_id, user_id, course_id, amount, currency, gateway, "created", session_id⟩
  return (⟨session_id, _id⟩,
          { db with payment := db.payment ++ [doc], nextId := db.nextId + 1 })

/- ### Seed data -/

/-- The five fixed sample course bodies of `seed_data` (src/main.py),
without the generated identifier. -/
structure CourseBody where
  title : String
  category : String
  description : String
  instructor : String
  level : String
  tags : List String
  price : ℚ
  thumbnail_url : Option String
deriving DecidableEq

/-- The `sample_courses` list of `seed_data`. -/
def sample_courses : List CourseBody :=
  [⟨"IELTS Mastery Program", "IELTS",
    "Comprehensive IELTS prep with practice tests and feedback.",
    "Dr. Aisha Khan", "Intermediate", ["IELTS", "Exam"], 149,
    some "https://images.unsplash.com/photo-1523580846011-d3a5bc25702b"⟩,
   ⟨"British Accent & Spoken English", "Accent & Spoken English",
    "Refine pronunciation, rhythm and intonation with native patterns.",
    "James Parker", "Beginner", ["Accent", "Speaking"], 129,
    some "https://images.unsplash.com/photo-1529078155058-5d716f45d604"⟩,
   ⟨"Personality Development & Soft Skills", "Personality Development",
    "Boost confidence, presence and workplace communication.",
    "Neha Sharma", "Beginner", ["Soft Skills", "Confidence"], 99,
    some "https://images.unsplash.com/photo-1522071820081-009f0129c71c"⟩,
   ⟨"Leadership & Corporate Communication", "Leadership & Corporate Communication",
    "Lead with clarity: executive presence, influence and storytelling.",
    "Rahul Verma", "Advanced", ["Leadership", "Corporate"], 199,
    some "https://images.unsplash.com/photo-1521791136064-7986c2920216"⟩,
   ⟨"CPHQ & Healthcare Quality Training", "CPHQ & Healthcare Quality",
    "Prepare for CPHQ with quality frameworks, patient safety and analytics.",
    "Dr. Sara Malik", "Advanced", ["CPHQ", "Healthcare"], 249,
    some "https://images.unsplash.com/photo-1584982751687-51f29c073f0f"⟩]

/-- The course document a seed body is stored as (promo_video_url is absent
from the seed dictionaries). -/
def seedDoc (n : ℕ) (b : CourseBody) : CourseDoc :=
  ⟨genId n, b.title, b.category, b.description, b.instructor, b.level,
   b.tags, b.price, b.thumbnail_url, none⟩

/-- The body stored in a course document. -/
def courseBody (c : CourseDoc) : CourseBody :=
  ⟨c.title, c.category, c.description, c.instructor, c.level, c.tags,
   c.price, c.thumbnail_url⟩

/-- The startup seed hook: when the course collection counts zero documents,
insert the five fixed sample courses (each via `create_document`); otherwise
do nothing. -/
def seed_data (db : DB) : DB :=
  if db.course.length = 0 then
    { db with
      course := db.course ++ (sample_courses.enum.map (fun nb => seedDoc (db.nextId + nb.1) nb.2)),
      nextId := db.nextId + sample_courses.length }
  else db

/- ### Specification-side reformulations (for comparison with the code) -/

/-- The scoring rule as the spec words it: submitted answers are compared to
the stored correct-answer indices positionally, and questions beyond the end
of the submitted answer list (the unanswered tail) count as incorrect. -/
def correct_count_spec : List Question → List Int → ℕ
  | [], _ => 0
  | _ :: qs, [] => correct_count_spec qs []
  | q :: qs, a :: as =>
      (match q.answer with
       | some b => if a = b then 1 else 0
       | none => 0) + correct_count_spec qs as

/- ### Concrete states used to evaluate the handlers -/

/-- The empty database (connected, no documents yet). -/
def emptyDB : DB := ⟨[], [], [], [], [], [], [], 0⟩

/-- A state with a four-lesson course "c4" and no progress records. -/
def demo4DB : DB :=
  { emptyDB with lesson := [⟨.oid "l1", "c4"⟩, ⟨.oid "l2", "c4"⟩,
                            ⟨.oid "l3", "c4"⟩, ⟨.oid "l4", "c4"⟩] }

/-- A state holding the seeded two-question quiz under identifier "qz1". -/
def quizDB : DB :=
  { emptyDB with quiz := [⟨.str "qz1", "c1", "Quick Check", seed_quiz_questions⟩] }

/-- A course whose title contains the letters x, y, z consecutively. -/
def xyzCourse : CourseDoc :=
  ⟨.oid "x1", "Xyz plan", "IELTS", "d", "i", "Beginner", [], 0, none, none⟩

/-- A state whose only course is `xyzCourse`. -/
def xyzDB : DB := { emptyDB with course := [xyzCourse] }

/-- A state with one lesson for course "c1" and a progress record already
holding one completed lesson id foreign to the course. -/
def overDB : DB :=
  { emptyDB with lesson := [⟨.oid "l1", "c1"⟩],
                 progress := [⟨.oid "p1", "u", "c1", ["a"], none⟩] }

/-- Pairwise-distinct lesson-id strings (the i-th is i+1 letters 'a'). -/
def aString (i : ℕ) : String := String.mk (List.replicate (i + 1) 'a')

/-- 20001 distinct completed-lesson ids. -/
def bigStored : List String := (List.range 20001).map aString

/-- 20001 lesson documents of course "c10". -/
def bigLessons : List LessonDoc :=
  (List.range 20001).map (fun i => ⟨.oid (Nat.repr i), "c10"⟩)

/-- A state where course "c10" has 20001 lessons and the pair (u, c10)
already has 20001 completed lessons recorded. -/
def bigDB : DB :=
  { emptyDB with lesson := bigLessons,
                 progress := [⟨.oid "p0", "u", "c10", bigStored, none⟩] }

/- ### Generic lemmas about the storage operations -/

theorem find?_updateFirst_self {α : Type} (p : α → Bool) (f : α → α)
    (hf : ∀ x, p x = true → p (f x) = true) :
    ∀ (l : List α) (r : α), l.find? p = some r →
      (updateFirst p f l).find? p = some (f r) := by
  intro l
  induction l with
  | nil => intro r h; simp at h
  | cons x xs ih =>
    intro r h
    by_cases hx : p x = true
    · rw [List.find?_cons_of_pos _ hx] at h
      cases h
      simp only [updateFirst, if_pos hx]
      exact List.find?_cons_of_pos _ (hf x hx)
    · have hx' : ¬ p x = true := hx
      rw [List.find?_cons_of_neg _ hx'] at h
      simp only [updateFirst, if_neg hx']
      rw [List.find?_cons_of_neg _ hx']
      exact ih r h

theorem find?_updateFirst_by_id {α β : Type} [DecidableEq β] (ident : α → β)
    (p : α → Bool) (f : α → α)
    (hf : ∀ x, p x = true → p (f x) = true) :
    ∀ (l : List α) (r : α), (l.map ident).Nodup → l.find? p = some r →
      (updateFirst (fun x => decide (ident x = ident r)) f l).find? p = some (f r) := by
  intro l
  induction l with
  | nil => intro r _ h; simp at h
  | cons x xs ih =>
    intro r hnd h
    rw [List.map_cons, List.nodup_cons] at hnd
    by_cases hx : p x = true
    · rw [List.find?_cons_of_pos _ hx] at h
      cases h
      simp only [updateFirst, decide_eq_true_eq, if_pos rfl]
      exact List.find?_cons_of_pos _ (hf x hx)
    · have hx' : ¬ p x = true := hx
      rw [List.find?_cons_of_neg _ hx'] at h
      have hrmem : r ∈ xs := List.mem_of_find?_eq_some h
      have hne : ¬ (ident x = ident r) := by
        intro he
        exact hnd.1 (he ▸ List.mem_map_of_mem ident hrmem)
      simp only [updateFirst, decide_eq_true_eq, if_neg hne]
      rw [List.find?_cons_of_neg _ hx']
      exact ih r hnd.2 h

/- ### Lemmas about the progress/enrollment writes -/

theorem enrollUpsertProgress_progress (db : DB) (u c : String) (q : ℚ) :
    (enrollUpsertProgress db u c q).progress = db.progress := by
  unfold enrollUpsertProgress; split <;> rfl

theorem enrollUpsertProgress_lesson (db : DB) (u c : String) (q : ℚ) :
    (enrollUpsertProgress db u c q).lesson = db.lesson := by
  unfold enrollUpsertProgress; split <;> rfl

theorem enrollUpsert_find (db : DB) (u c : String) (q : ℚ) :
    ∃ e, findEnrollment (enrollUpsertProgress db u c q) u c = some e ∧
      e.progress = q := by
  unfold enrollUpsertProgress
  by_cases hs : (findEnrollment db u c).isSome
  · rw [if_pos hs]
    obtain ⟨e0, he0⟩ := Option.isSome_iff_exists.mp hs
    have hupd := find?_updateFirst_self
      (fun e => decide (e.user_id = u) && decide (e.course_id = c))
      (fun e => { e with progress := q })
      (fun x hx => by simpa using hx) db.enrollment e0 (by simpa [findEnrollment] using he0)
    exact ⟨_, by simpa [findEnrollment] using hupd, rfl⟩
  · rw [if_neg hs]
    have hnone : db.enrollment.find?
        (fun e => decide (e.user_id = u) && decide (e.course_id = c)) = none := by
      simpa [findEnrollment] using Option.not_isSome_iff_eq_none.mp hs
    refine ⟨⟨genId db.nextId, u, c, none, q⟩, ?_, rfl⟩
    simp [findEnrollment, List.find?_append, hnone]

theorem markDb1_lesson (db : DB) (u c l : String) :
    (markDb1 db u c l).lesson = db.lesson := by
  unfold markDb1; cases findProgress db u c <;> rfl

theorem markDb1_enrollment (db : DB) (u c l : String) :
    (markDb1 db u c l).enrollment = db.enrollment := by
  unfold markDb1; cases findProgress db u c <;> rfl

theorem mark_progress_fst (db : DB) (u c l : String) :
    (mark_progress db u c l).1 =
      pyRound2 (100 * (completedAfter db u c l).length) (totalLessons db c) := rfl

theorem mark_progress_snd (db : DB) (u c l : String) :
    (mark_progress db u c l).2 =
      enrollUpsertProgress (markDb1 db u c l) u c ((mark_progress db u c l).1) := rfl

theorem markDb1_findProgress (db : DB) (u c l : String)
    (hnd : (db.progress.map ProgressDoc._id).Nodup) :
    ∃ r, findProgress (markDb1 db u c l) u c = some r ∧
      r.completed_lessons = completedAfter db u c l ∧
      r.user_id = u ∧ r.course_id = c := by
  unfold markDb1
  cases hpr : findProgress db u c with
  | some r0 =>
      have hfind : db.progress.find?
          (fun r => decide (r.user_id = u) && decide (r.course_id = c)) = some r0 := by
        simpa [findProgress] using hpr
      have hps : r0.user_id = u ∧ r0.course_id = c := by
        have := List.find?_some hfind
        simpa using this
      have hupd := find?_updateFirst_by_id ProgressDoc._id
        (fun r => decide (r.user_id = u) && decide (r.course_id = c))
        (fun r0 => { r0 with completed_lessons := completedAfter db u c l,
                             last_lesson_id := some l })
        (fun x hx => by simpa using hx) db.progress r0 hnd hfind
      exact ⟨{ r0 with completed_lessons := completedAfter db u c l, last_lesson_id := some l },
        by simpa [findProgress] using hupd, rfl, hps.1, hps.2⟩
  | none =>
      have hnone : db.progress.find?
          (fun r => decide (r.user_id = u) && decide (r.course_id = c)) = none := by
        simpa [findProgress] using hpr
      refine ⟨⟨genId db.nextId, u, c, completedAfter db u c l, some l⟩, ?_, rfl, rfl, rfl⟩
      simp [findProgress, List.find?_append, hnone]

theorem findProgress_mark (db : DB) (u c l : String)
    (hnd : (db.progress.map ProgressDoc._id).Nodup) :
    ∃ r, findProgress (mark_progress db u c l).2 u c = some r ∧
      r.completed_lessons = completedAfter db u c l := by
  obtain ⟨r, hr, hc, -, -⟩ := markDb1_findProgress db u c l hnd
  refine ⟨r, ?_, hc⟩
  rw [mark_progress_snd]
  simpa [findProgress, enrollUpsertProgress_progress] using hr

/- ### Regular-expression facts -/

theorem regexMatchI_empty (s : String) : regexMatchI "" s = true := by
  unfold regexMatchI
  have hnil : ("" : String).data = [] := rfl
  rw [hnil]
  cases s.data with
  | nil => rfl
  | cons c cs => simp [regexSearch, matchHere]

/- ### Per-branch evaluation lemmas for the check-then-create handlers -/

theorem enroll_existing (db : DB) (u c : String) (d : EnrollmentDoc)
    (h : findEnrollment db u c = some d) : enroll db u c = (.existing d, db) := by
  unfold enroll; rw [h]

theorem enroll_fresh (db : DB) (u c : String)
    (h : findEnrollment db u c = none) :
    enroll db u c =
      (.created (genId db.nextId) "enrolled",
       { db with
           enrollment := db.enrollment ++ [⟨genId db.nextId, u, c, some "enrolled", 0⟩]
           nextId := db.nextId + 1 }) := by
  unfold enroll; rw [h]

theorem issue_certificate_existing (db : DB) (r : ℕ) (u c : String)
    (d : CertificateDoc) (h : findCertificate db u c = some d) :
    issue_certificate db r u c = (.existing d, db) := by
  unfold issue_certificate; rw [h]

theorem issue_certificate_fresh (db : DB) (r : ℕ) (u c : String)
    (h : findCertificate db u c = none) :
    issue_certificate db r u c =
      (.created (genId db.nextId) ("FO-" ++ Nat.repr r),
       { db with
           certificate := db.certificate ++
             [⟨genId db.nextId, u, c, "FO-" ++ Nat.repr r,
               "https://certs.frontier.example/" ++ ("FO-" ++ Nat.repr r)⟩]
           nextId := db.nextId + 1 }) := by
  unfold issue_certificate; rw [h]

/- ### Claim theorems -/

/-- C1: the claim says a payment-session request with an unknown course_id
succeeds recording amount 0.0; in the code the `amount` expression applies
`float()` to the coalesced course-lookup result (a dictionary or `\x7b\x7d`)
before calling `.get`, so every request — the failing input
user "u1", course "nonexistent" against the seeded catalog included —
raises TypeError and no payment document is recorded. -/
theorem create_payment_session_raises_typeerror :
    (∀ (db : DB) (rand : ℕ) (u c g cur : String),
        create_payment_session db rand u c g cur = .error .typeError) ∧
    create_payment_session (seed_data emptyDB) 123456 "u1" "nonexistent" "stripe" "USD"
      = .error .typeError := by
  refine ⟨?_, rfl⟩
  intro db rand u c g cur
  unfold create_payment_session
  cases h : findCourseOid db c <;> rfl

/-- C2: enrolling twice for the same (user_id, course_id) pair, absent
concurrency: the first call creates the enrollment record with status
"enrolled" at 0 percent progress, the second call returns that existing
record unchanged without error and leaves the database unchanged, so both
calls reflect the same enrollment record state. -/
theorem enroll_twice_same_record (db : DB) (u c : String)
    (h : findEnrollment db u c = none) :
    ∃ d : EnrollmentDoc,
      (enroll db u c).2.enrollment = db.enrollment ++ [d] ∧
      d.user_id = u ∧ d.course_id = c ∧
      d.status = some "enrolled" ∧ d.progress = 0 ∧
      (enroll db u c).1 = .created d._id "enrolled" ∧
      (enroll (enroll db u c).2 u c).1 = .existing d ∧
      (enroll (enroll db u c).2 u c).2 = (enroll db u c).2 := by
  have h1 := enroll_fresh db u c h
  have hfind2 : findEnrollment (enroll db u c).2 u c =
      some ⟨genId db.nextId, u, c, some "enrolled", 0⟩ := by
    rw [h1]
    have hnone : db.enrollment.find?
        (fun e => decide (e.user_id = u) && decide (e.course_id = c)) = none := by
      simpa [findEnrollment] using h
    simp [findEnrollment, List.find?_append, hnone]
  have h2 := enroll_existing _ u c _ hfind2
  refine ⟨⟨genId db.nextId, u, c, some "enrolled", 0⟩, ?_, rfl, rfl, rfl, rfl, ?_, ?_, ?_⟩
  · rw [h1]
  · rw [h1]
  · rw [h2]
  · rw [h2]

/-- C2 witness: the double-enroll property evaluated on the empty database
for the pair (u1, c1). -/
theorem enroll_twice_same_record_witness :
    ∃ d : EnrollmentDoc,
      (enroll emptyDB "u1" "c1").2.enrollment = emptyDB.enrollment ++ [d] ∧
      d.user_id = "u1" ∧ d.course_id = "c1" ∧
      d.status = some "enrolled" ∧ d.progress = 0 ∧
      (enroll emptyDB "u1" "c1").1 = .created d._id "enrolled" ∧
      (enroll (enroll emptyDB "u1" "c1").2 "u1" "c1").1 = .existing d ∧
      (enroll (enroll emptyDB "u1" "c1").2 "u1" "c1").2 = (enroll emptyDB "u1" "c1").2 :=
  enroll_twice_same_record emptyDB "u1" "c1" (by decide)

/-- C5: issuing a certificate twice for the same pair, absent concurrency:
the first call records one certificate document carrying the code built from
the first random draw; the second call (with any other draw) returns that
existing document, creates nothing, and both responses carry the identical
certificate_code. -/
theorem issue_certificate_idempotent (db : DB) (r1 r2 : ℕ) (u c : String)
    (h : findCertificate db u c = none) :
    ∃ d : CertificateDoc,
      (issue_certificate db r1 u c).2.certificate = db.certificate ++ [d] ∧
      d.certificate_code = "FO-" ++ Nat.repr r1 ∧
      (issue_certificate db r1 u c).1 = .created d._id d.certificate_code ∧
      (issue_certificate (issue_certificate db r1 u c).2 r2 u c).1 = .existing d ∧
      (issue_certificate (issue_certificate db r1 u c).2 r2 u c).2 =
        (issue_certificate db r1 u c).2 ∧
      certRespCode (issue_certificate (issue_certificate db r1 u c).2 r2 u c).1 =
        certRespCode (issue_certificate db r1 u c).1 := by
  have h1 := issue_certificate_fresh db r1 u c h
  have hfind2 : findCertificate (issue_certificate db r1 u c).2 u c =
      some ⟨genId db.nextId, u, c, "FO-" ++ Nat.repr r1,
            "https://certs.frontier.example/" ++ ("FO-" ++ Nat.repr r1)⟩ := by
    rw [h1]
    have hnone : db.certificate.find?
        (fun d => decide (d.user_id = u) && decide (d.course_id = c)) = none := by
      simpa [findCertificate] using h
    simp [findCertificate, List.find?_append, hnone]
  have h2 := issue_certificate_existing _ r2 u c _ hfind2
  refine ⟨⟨genId db.nextId, u, c, "FO-" ++ Nat.repr r1,
           "https://certs.frontier.example/" ++ ("FO-" ++ Nat.repr r1)⟩,
    ?_, rfl, ?_, ?_, ?_, ?_⟩
  · rw [h1]
  · rw [h1]
  · rw [h2]
  · rw [h2]
  · rw [h2, h1]; rfl

/-- C5 witness: the double-issue property evaluated on the empty database
for the pair (u1, c1) with two distinct random draws. -/
theorem issue_certificate_idempotent_witness :
    ∃ d : CertificateDoc,
      (issue_certificate emptyDB 111111 "u1" "c1").2.certificate =
        emptyDB.certificate ++ [d] ∧
      d.certificate_code = "FO-" ++ Nat.repr 111111 ∧
      (issue_certificate emptyDB 111111 "u1" "c1").1 = .created d._id d.certificate_code ∧
      (issue_certificate (issue_certificate emptyDB 111111 "u1" "c1").2 222222 "u1" "c1").1 =
        .existing d ∧
      (issue_certificate (issue_certificate emptyDB 111111 "u1" "c1").2 222222 "u1" "c1").2 =
        (issue_certificate emptyDB 111111 "u1" "c1").2 ∧
      certRespCode (issue_certificate
          (issue_certificate emptyDB 111111 "u1" "c1").2 222222 "u1" "c1").1 =
        certRespCode (issue_certificate emptyDB 111111 "u1" "c1").1 :=
  issue_certificate_idempotent emptyDB 111111 222222 "u1" "c1" (by decide)

/-- C8: the course-detail endpoint fails with the 404 error exactly when both
identifier lookup strategies find no course, and returns the found document
otherwise; the quiz-submission endpoint fails with the 404 error exactly when
both quiz lookup strategies find no quiz. -/
theorem lookup_404_iff (db : DB) (s : String) (d : CourseDoc) (answers : List Int) :
    ((course_detail db s = .error ⟨404, "Course not found"⟩) ↔
      (findCourseOid db s = none ∧ findCourseStr db s = none)) ∧
    ((course_detail db s = .ok d) ↔
      ((findCourseOid db s).or (findCourseStr db s) = some d)) ∧
    ((submit_quiz db s answers = .error ⟨404, "Quiz not found"⟩) ↔
      findQuiz db s = none) := by
  refine ⟨?_, ?_, ?_⟩
  · unfold course_detail
    cases h1 : findCourseOid db s <;> cases h2 : findCourseStr db s <;>
      simp [Option.or, h1, h2]
  · unfold course_detail
    cases h1 : findCourseOid db s <;> cases h2 : findCourseStr db s <;>
      simp [Option.or, h1, h2]
  · unfold submit_quiz
    cases h : findQuiz db s <;> simp [h]

/-- C9: at startup, a state whose course collection is empty is seeded with
exactly the five fixed sample courses (other collections untouched), and a
state whose course collection is non-empty is left entirely unchanged. -/
theorem seed_data_spec (db : DB) :
    (db.course = [] →
      (seed_data db).course.map courseBody = sample_courses ∧
      (seed_data db).course.length = 5 ∧
      (seed_data db).lesson = db.lesson ∧
      (seed_data db).quiz = db.quiz ∧
      (seed_data db).enrollment = db.enrollment ∧
      (seed_data db).progress = db.progress ∧
      (seed_data db).certificate = db.certificate ∧
      (seed_data db).payment = db.payment) ∧
    (db.course ≠ [] → seed_data db = db) := by
  constructor
  · intro h
    have hcomp : (courseBody ∘ fun nb : ℕ × CourseBody =>
        seedDoc (db.nextId + nb.1) nb.2) = Prod.snd := by
      funext nb; rfl
    refine ⟨?_, ?_, ?_, ?_, ?_, ?_, ?_, ?_⟩
    all_goals
      simp [seed_data, h, List.map_map, hcomp, List.enum_map_snd, List.enum_length]
    all_goals rfl
  · intro h
    have hl : ¬ db.course.length = 0 := by simpa [List.length_eq_zero] using h
    simp [seed_data, hl]

/-- C6 (amended): for a course-list request whose category parameter is a
non-empty string, every returned document's category equals the parameter
exactly, and at most 100 documents are returned.  (The original claim, for
every request "with a category parameter", fails when the parameter is the
empty string: Python's truthiness test skips the filter then.) -/
theorem list_courses_category_filter (db : DB) (cat : String) (q : Option String)
    (h : cat ≠ "") :
    (∀ c ∈ list_courses db (some cat) q, c.category = cat) ∧
    (list_courses db (some cat) q).length ≤ 100 := by
  constructor
  · intro c hc
    have hc' : c ∈ db.course.filter (courseFilter (some cat) q) :=
      List.mem_of_mem_take (by simpa [list_courses, get_documents] using hc)
    have hf := (List.mem_filter.mp hc').2
    cases q with
    | none =>
        simp [courseFilter, h] at hf
        exact hf
    | some qs =>
        simp [courseFilter, h] at hf
        exact hf.1
  · have hle := List.length_take_le 100 (db.course.filter (courseFilter (some cat) q))
    simp only [list_courses, get_documents]
    exact hle

/-- C6 witness: the amended property evaluated on the seeded catalog with
category "IELTS". -/
theorem list_courses_category_filter_witness :
    (∀ c ∈ list_courses (seed_data emptyDB) (some "IELTS") none,
        c.category = "IELTS") ∧
    (list_courses (seed_data emptyDB) (some "IELTS") none).length ≤ 100 :=
  list_courses_category_filter (seed_data emptyDB) "IELTS" none (by decide)

/-- C6 counterexample: with the category parameter present but equal to the
empty string, the request against the seeded catalog returns documents (all
five) whose category differs from the parameter, refuting "returns only
documents whose category field equals the parameter" for every request with
a category parameter. -/
theorem list_courses_empty_category_cex :
    (list_courses (seed_data emptyDB) (some "") none).map CourseDoc.category =
      ["IELTS", "Accent & Spoken English", "Personality Development",
       "Leadership & Corporate Communication", "CPHQ & Healthcare Quality"] ∧
    ∃ c ∈ list_courses (seed_data emptyDB) (some "") none, c.category ≠ "" := by
  refine ⟨rfl, ?_⟩
  decide

/-- C7 (amended): the q parameter is passed to the database as a
case-insensitive unanchored regular-expression pattern, so a course is
returned exactly when its title matches q as a regex (within the 100-result
limit); for patterns without regex metacharacters — such as "ielts" — this
coincides with case-insensitive substring containment, and q="ielts" indeed
returns exactly the seeded course whose title contains "IELTS". -/
theorem list_courses_q_regex :
    (∀ (db : DB) (q : String),
        list_courses db none (some q) =
          (db.course.filter (fun c => regexMatchI q c.title)).take 100) ∧
    (list_courses (seed_data emptyDB) none (some "ielts")).map CourseDoc.title =
      ["IELTS Mastery Program"] ∧
    containsInsensitive "ielts" "IELTS Mastery Program" = true := by
  refine ⟨?_, rfl, by decide⟩
  intro db q
  unfold list_courses get_documents
  congr 1
  apply List.filter_congr
  intro c _
  by_cases hq : q = ""
  · subst hq
    simp [courseFilter, regexMatchI_empty]
  · simp [courseFilter, hq]

/-- C7 counterexample: the pattern "x.z" contains the regex metacharacter
`.`; the course titled "Xyz plan" is returned for q="x.z" although its title
does not contain "x.z" as a substring (ignoring case), refuting the claim
that a course is returned exactly when its title contains q as a substring. -/
theorem list_courses_regex_cex :
    list_courses xyzDB none (some "x.z") = [xyzCourse] ∧
    containsInsensitive "x.z" xyzCourse.title = false :=
  ⟨rfl, by decide⟩

/- ### Scoring-loop bridge for C4 -/

theorem correct_count_aux (qs : List Question) :
    ∀ (n : ℕ) (answers : List Int),
      ((qs.enumFrom n).filter (fun iq =>
          match answers[iq.1]?, iq.2.answer with
          | some a, some b => decide (a = b)
          | _, _ => false)).length
        = correct_count_spec qs (answers.drop n) := by
  induction qs with
  | nil => intro n answers; simp [correct_count_spec]
  | cons q qs ih =>
    intro n answers
    rw [List.enumFrom_cons]
    cases hd : answers.drop n with
    | nil =>
        have hget : answers[n]? = none := by
          have h0 : (answers.drop n).head? = none := by rw [hd]; rfl
          rwa [List.head?_drop] at h0
        have hd1 : answers.drop (n + 1) = [] := by
          have hdd := List.drop_drop 1 n answers
          rw [hd] at hdd
          simpa using hdd.symm
        rw [List.filter_cons]
        simp [hget, ih (n + 1), hd1, hd, correct_count_spec]
    | cons a as =>
        have hget : answers[n]? = some a := by
          have h0 : (answers.drop n).head? = some a := by rw [hd]; rfl
          rwa [List.head?_drop] at h0
        have hd1 : answers.drop (n + 1) = as := by
          have hdd := List.drop_drop 1 n answers
          rw [hd] at hdd
          simpa using hdd.symm
        rw [List.filter_cons]
        cases hqa : q.answer with
        | none => simp [hget, hqa, ih (n + 1), hd1, hd, correct_count_spec]
        | some b =>
            by_cases hab : a = b
            · simp [hget, hqa, hab, ih (n + 1), hd1, hd, correct_count_spec]
              omega
            · simp [hget, hqa, hab, ih (n + 1), hd1, hd, correct_count_spec]

theorem correct_count_eq_spec (qs : List Question) (answers : List Int) :
    correct_count qs answers = correct_count_spec qs answers := by
  have h := correct_count_aux qs 0 answers
  simpa [correct_count, List.enum] using h

/- ### Rounding bounds for C10 -/

theorem rheNat_cases (n d : ℕ) : rheNat n d = n / d ∨ rheNat n d = n / d + 1 := by
  simp only [rheNat]
  split
  · exact Or.inl rfl
  · split
    · exact Or.inr rfl
    · split
      · exact Or.inl rfl
      · exact Or.inr rfl

theorem rheNat_ge (n d k : ℕ) (hd : 0 < d) (h : k * d ≤ n) : k ≤ rheNat n d := by
  have h1 : k ≤ n / d := (Nat.le_div_iff_mul_le hd).mpr h
  rcases rheNat_cases n d with he | he <;> omega

theorem rheNat_gt (n d : ℕ) (hd : 0 < d) (hd2 : d < 20000)
    (h : 10000 * d + 10000 ≤ n) : 10001 ≤ rheNat n d := by
  have h1 : 10000 ≤ n / d := (Nat.le_div_iff_mul_le hd).mpr (by omega)
  have hdm := Nat.div_add_mod n d
  by_cases hq : 10001 ≤ n / d
  · rcases rheNat_cases n d with he | he <;> omega
  · have hqe : n / d = 10000 := by omega
    rw [hqe] at hdm
    have hcond1 : ¬ (2 * (n % d) < d) := by omega
    have hcond2 : d < 2 * (n % d) := by omega
    simp only [rheNat]
    rw [if_neg hcond1, if_pos hcond2, hqe]

theorem pyRound2_ge_100 (a b : ℕ) (h : 10000 ≤ rheNat (100 * a) b) :
    (100 : ℚ) ≤ pyRound2 a b := by
  unfold pyRound2
  rw [le_div_iff₀ (by norm_num : (0:ℚ) < 100)]
  have hc : ((10000 : ℕ) : ℚ) ≤ (rheNat (100 * a) b : ℚ) := Nat.cast_le.mpr h
  calc (100:ℚ) * 100 = ((10000:ℕ):ℚ) := by norm_num
  _ ≤ _ := hc

theorem pyRound2_gt_100 (a b : ℕ) (h : 10001 ≤ rheNat (100 * a) b) :
    (100 : ℚ) < pyRound2 a b := by
  unfold pyRound2
  rw [lt_div_iff₀ (by norm_num : (0:ℚ) < 100)]
  have hc : ((10001 : ℕ) : ℚ) ≤ (rheNat (100 * a) b : ℚ) := Nat.cast_le.mpr h
  calc (100:ℚ) * 100 < ((10001:ℕ):ℚ) := by norm_num
  _ ≤ _ := hc

/- ### Facts about the large concrete state for C10 -/

theorem aString_injective : Function.Injective aString := by
  intro i j h
  have hd : List.replicate (i + 1) 'a' = List.replicate (j + 1) 'a' :=
    congrArg String.data h
  have hlen := congrArg List.length hd
  simp [List.length_replicate] at hlen
  omega

theorem bigStored_nodup : bigStored.Nodup := by
  unfold bigStored
  exact (List.nodup_range 20001).map aString_injective

theorem x_not_mem_bigStored : "x" ∉ bigStored := by
  unfold bigStored
  intro hmem
  obtain ⟨i, -, hi⟩ := List.mem_map.mp hmem
  have hd : List.replicate (i + 1) 'a' = ("x" : String).data :=
    congrArg String.data hi
  rw [List.replicate_succ, show ("x" : String).data = ['x'] from rfl] at hd
  simp at hd

theorem lessonCount_bigDB : lessonCount bigDB "c10" = 20001 := by
  have hlb : bigDB.lesson = bigLessons := by simp only [bigDB]
  unfold lessonCount
  rw [hlb]
  unfold bigLessons
  have hall : ∀ ld ∈ (List.range 20001).map
      (fun i => (⟨.oid (Nat.repr i), "c10"⟩ : LessonDoc)),
      (decide (ld.course_id = "c10")) = true := by
    intro ld hld
    obtain ⟨i, -, rfl⟩ := List.mem_map.mp hld
    simp
  rw [List.filter_eq_self.mpr hall, List.length_map, List.length_range]

theorem storedCompleted_bigDB : storedCompleted bigDB "u" "c10" = bigStored := by
  have hp : bigDB.progress = [⟨.oid "p0", "u", "c10", bigStored, none⟩] := by
    simp only [bigDB]
  unfold storedCompleted findProgress
  rw [hp, List.find?_cons_of_pos _ (by rfl)]
  simp only [Option.map_some', Option.getD_some]

theorem completedAfter_bigDB :
    (completedAfter bigDB "u" "c10" "x").length = 20002 := by
  unfold completedAfter
  rw [storedCompleted_bigDB, List.dedup_eq_self.mpr bigStored_nodup,
      List.insert_of_not_mem x_not_mem_bigStored, List.length_cons]
  unfold bigStored
  rw [List.length_map, List.length_range]

/-- C3: marking a lesson complete returns the percent computed by Python's
2-decimal rounding of 100 times the completion-set size over the lesson
count (1 when the course has no lessons); the completion set is the stored
set with the lesson inserted (set semantics); the percent is written to the
enrollment; re-marking the same lesson changes nothing (idempotent per
lesson); and on a 4-lesson course marking L1 then L2 yields 25.0 then
50.0. -/
theorem mark_progress_spec_thm :
    (∀ (db : DB) (u c l : String),
        (mark_progress db u c l).1 =
          pyRound2 (100 * (completedAfter db u c l).length) (totalLessons db c) ∧
        completedAfter db u c l = (storedCompleted db u c).dedup.insert l ∧
        totalLessons db c = (if lessonCount db c = 0 then 1 else lessonCount db c)) ∧
    (∀ (db : DB) (u c l : String), (db.progress.map ProgressDoc._id).Nodup →
        (∃ r, findProgress (mark_progress db u c l).2 u c = some r ∧
            r.completed_lessons = completedAfter db u c l) ∧
        (∃ e, findEnrollment (mark_progress db u c l).2 u c = some e ∧
            e.progress = (mark_progress db u c l).1) ∧
        (mark_progress (mark_progress db u c l).2 u c l).1 =
          (mark_progress db u c l).1) ∧
    (mark_progress demo4DB "u" "c4" "L1").1 = 25 ∧
    (mark_progress (mark_progress demo4DB "u" "c4" "L1").2 "u" "c4" "L2").1 = 50 := by
  refine ⟨fun db u c l => ⟨rfl, rfl, rfl⟩, ?_, ?_, ?_⟩
  · intro db u c l hnd
    obtain ⟨r, hr, hrc⟩ := findProgress_mark db u c l hnd
    refine ⟨⟨r, hr, hrc⟩, ?_, ?_⟩
    · rw [mark_progress_snd]
      exact enrollUpsert_find _ u c _
    · have hlesson : (mark_progress db u c l).2.lesson = db.lesson := by
        rw [mark_progress_snd, enrollUpsertProgress_lesson, markDb1_lesson]
      have htot : totalLessons (mark_progress db u c l).2 c = totalLessons db c := by
        unfold totalLessons lessonCount
        rw [hlesson]
      have hstored : storedCompleted (mark_progress db u c l).2 u c =
          completedAfter db u c l := by
        unfold storedCompleted
        rw [hr]
        simpa using hrc
      have hnodup : (completedAfter db u c l).Nodup := by
        unfold completedAfter
        exact (List.nodup_dedup _).insert
      have hmem : l ∈ completedAfter db u c l := by
        unfold completedAfter
        exact List.mem_insert_self l _
      have hcomp : completedAfter (mark_progress db u c l).2 u c l =
          completedAfter db u c l := by
        calc completedAfter (mark_progress db u c l).2 u c l
            = (storedCompleted (mark_progress db u c l).2 u c).dedup.insert l := rfl
        _ = (completedAfter db u c l).dedup.insert l := by rw [hstored]
        _ = (completedAfter db u c l).insert l := by
              rw [List.dedup_eq_self.mpr hnodup]
        _ = completedAfter db u c l := List.insert_of_mem hmem
      rw [mark_progress_fst, mark_progress_fst, hcomp, htot]
  · simp +decide [mark_progress_fst, completedAfter, storedCompleted,
      findProgress, totalLessons, lessonCount, demo4DB, emptyDB]
    norm_num [pyRound2, rheNat]
  · simp +decide [mark_progress_fst, mark_progress_snd, markDb1, completedAfter,
      storedCompleted, findProgress, totalLessons, lessonCount, demo4DB, emptyDB,
      enrollUpsertProgress, findEnrollment, updateFirst, List.dedup, List.insert]
    norm_num [pyRound2, rheNat]

/-- C3 witness: the stateful conjuncts of the progress property evaluated on
the 4-lesson demo state for lesson L1 (hypothesis: the stored progress
records have distinct identifiers). -/
theorem mark_progress_spec_thm_witness :
    (demo4DB.progress.map ProgressDoc._id).Nodup ∧
    ((∃ r, findProgress (mark_progress demo4DB "u" "c4" "L1").2 "u" "c4" = some r ∧
        r.completed_lessons = completedAfter demo4DB "u" "c4" "L1") ∧
     (∃ e, findEnrollment (mark_progress demo4DB "u" "c4" "L1").2 "u" "c4" = some e ∧
        e.progress = (mark_progress demo4DB "u" "c4" "L1").1) ∧
     (mark_progress (mark_progress demo4DB "u" "c4" "L1").2 "u" "c4" "L1").1 =
        (mark_progress demo4DB "u" "c4" "L1").1) :=
  ⟨by decide, mark_progress_spec_thm.2.1 demo4DB "u" "c4" "L1" (by decide)⟩

/-- C4: quiz submission scores by positional comparison of the submitted
answer list against the stored correct-answer indices, counting the
unanswered tail as incorrect, and returns Python's 2-decimal rounding of
100 times correct over total (denominator at least 1); on the seeded
two-question quiz, answers [1,0] score 100.0 and [0,0] score 50.0. -/
theorem submit_quiz_scoring :
    (∀ (db : DB) (quiz_id : String) (answers : List Int),
        submit_quiz db quiz_id answers =
          match findQuiz db quiz_id with
          | none => .error ⟨404, "Quiz not found"⟩
          | some qz => .ok ⟨mongoIdStr qz._id,
              pyRound2 (100 * correct_count_spec qz.questions answers)
                (max 1 qz.questions.length)⟩) ∧
    submit_quiz quizDB "qz1" [1, 0] = .ok ⟨"qz1", 100⟩ ∧
    submit_quiz quizDB "qz1" [0, 0] = .ok ⟨"qz1", 50⟩ := by
  refine ⟨?_, ?_, ?_⟩
  · intro db quiz_id answers
    unfold submit_quiz
    cases h : findQuiz db quiz_id with
    | none => rfl
    | some qz => simp [correct_count_eq_spec]
  · simp +decide [submit_quiz, findQuiz, quizDB, emptyDB, seed_quiz_questions,
      correct_count, mongoIdStr, List.enum, List.enumFrom]
    norm_num [pyRound2, rheNat]
  · simp +decide [submit_quiz, findQuiz, quizDB, emptyDB, seed_quiz_questions,
      correct_count, mongoIdStr, List.enum, List.enumFrom]
    norm_num [pyRound2, rheNat]

/-- C10 (amended): when the completion set after the update outnumbers the
course's (at least one) lesson documents, the returned percent — also
written to the enrollment — is at least 100, and strictly greater than 100
whenever the course has fewer than 20000 lessons.  (The original "strictly
greater than 100" in full generality fails: with 20001 lessons and 20002
completed, 2-decimal rounding returns exactly 100.0.) -/
theorem mark_progress_over100 (db : DB) (u c l : String)
    (h1 : 1 ≤ lessonCount db c)
    (h2 : lessonCount db c < (completedAfter db u c l).length) :
    (100 : ℚ) ≤ (mark_progress db u c l).1 ∧
    (∃ e, findEnrollment (mark_progress db u c l).2 u c = some e ∧
        e.progress = (mark_progress db u c l).1) ∧
    (lessonCount db c < 20000 → (100 : ℚ) < (mark_progress db u c l).1) := by
  have htot : totalLessons db c = lessonCount db c := by
    unfold totalLessons
    rw [if_neg (by omega)]
  refine ⟨?_, ?_, ?_⟩
  · rw [mark_progress_fst, htot]
    apply pyRound2_ge_100
    apply rheNat_ge _ _ _ (by omega)
    omega
  · rw [mark_progress_snd]
    exact enrollUpsert_find _ u c _
  · intro h3
    rw [mark_progress_fst, htot]
    apply pyRound2_gt_100
    apply rheNat_gt _ _ (by omega) h3
    omega

/-- C10 witness: the amended property evaluated on a state with one lesson
for course c1 and a foreign completed lesson already stored: marking a
second foreign lesson yields percent 200.0. -/
theorem mark_progress_over100_witness :
    (1 ≤ lessonCount overDB "c1" ∧
     lessonCount overDB "c1" < (completedAfter overDB "u" "c1" "b").length) ∧
    ((100 : ℚ) ≤ (mark_progress overDB "u" "c1" "b").1 ∧
     (∃ e, findEnrollment (mark_progress overDB "u" "c1" "b").2 "u" "c1" = some e ∧
        e.progress = (mark_progress overDB "u" "c1" "b").1) ∧
     (lessonCount overDB "c1" < 20000 → (100 : ℚ) < (mark_progress overDB "u" "c1" "b").1)) :=
  ⟨⟨by decide, by decide⟩, mark_progress_over100 overDB "u" "c1" "b" (by decide) (by decide)⟩

/-- C10 counterexample: a state satisfying the claim's precondition — course
c10 has 20001 lessons (at least 1) and the completion set after the update
has 20002 elements, strictly more — on which the returned percent is exactly
100.0, not strictly greater than 100. -/
theorem mark_progress_over100_cex :
    1 ≤ lessonCount bigDB "c10" ∧
    lessonCount bigDB "c10" < (completedAfter bigDB "u" "c10" "x").length ∧
    (mark_progress bigDB "u" "c10" "x").1 = 100 ∧
    ¬ (100 : ℚ) < (mark_progress bigDB "u" "c10" "x").1 := by
  have hl := lessonCount_bigDB
  have hc := completedAfter_bigDB
  have hp : (mark_progress bigDB "u" "c10" "x").1 = 100 := by
    rw [mark_progress_fst]
    unfold totalLessons
    rw [hl, hc]
    norm_num
    have hr : rheNat (100 * (100 * 20002)) 20001 = 10000 := by decide
    unfold pyRound2
    rw [hr]
    norm_num
  exact ⟨by omega, by omega, hp, by rw [hp]; norm_num⟩

/-- C9 witness: seeding the empty database yields the five sample courses;
re-seeding the now non-empty database changes nothing. -/
theorem seed_data_spec_witness :
    ((seed_data emptyDB).course.map courseBody = sample_courses ∧
      (seed_data emptyDB).course.length = 5) ∧
    seed_data (seed_data emptyDB) = seed_data emptyDB := by
  have h1 := (seed_data_spec emptyDB).1 rfl
  have h2 := (seed_data_spec (seed_data emptyDB)).2 (by decide)
  exact ⟨⟨h1.1, h1.2.1⟩, h2⟩

end Academy
